import Mathlib

/-!
Shallow embedding of the narwhal local network client
(src/narwhal/network/src/client.rs) and of the sui-proxy histogram relay
(src/crates/sui-proxy/src/histogram_relay.rs).

The Rust `NetworkClient` wraps `Arc<RwLock<ClientInner>>`; here `ClientInner` is an
explicit state value and every method becomes a function on `ClientInner`
(mutating methods return the new state, read-only methods thread the state
through unchanged, mirroring read-lock access).  Handler trait objects
(`Arc<dyn PrimaryToWorker>` etc.) are opaque to the client code, so the
embedding is parametric in three handler types `H1 H2 H3`
(worker-to-primary, primary-to-worker, worker-to-worker); clones of an
`Arc` are modelled by the value itself.  The `sleep(500ms)` suspension and
each loop attempt are recorded in an explicit event trace.
-/

/-- Rust `anemo::PeerId`, a 32-byte identifier.  Bytes are modelled as `Nat`. -/
structure PeerId where
  bytes : List Nat
deriving DecidableEq, Repr

/-- Rust `crypto::NetworkPublicKey` (an ed25519 public key, 32 bytes). -/
structure NetworkPublicKey where
  bytes : List Nat
deriving DecidableEq, Repr

/-- Rust `crypto::NetworkKeyPair`; only its public half is read by this module. -/
structure NetworkKeyPair where
  publicKey : NetworkPublicKey
deriving DecidableEq, Repr

/-- Derivation `PeerId(worker_peer.0.into())`: the identity derived from a public
network key is its byte string. -/
def peerIdOfKey (k : NetworkPublicKey) : PeerId :=
  ⟨k.bytes⟩

/-- Rust `fn empty_peer_id`, which returns `PeerId([0u8; 32])`. -/
def empty_peer_id : PeerId :=
  ⟨List.replicate 32 0⟩

/-- Rust `types::error::LocalClientError`. -/
inductive LocalClientError where
  | ShuttingDown
  | WorkerNotStarted (id : PeerId)
  | PrimaryNotStarted (id : PeerId)
  | Internal (msg : String)
deriving DecidableEq, Repr

/-- Observable events of a lookup: one `attempt` per loop iteration that
reaches the read-lock body, one `sleepMs 500` per executed
`sleep(Duration::from_millis(500))`. -/
inductive Event where
  | attempt
  | sleepMs (n : Nat)
deriving DecidableEq, Repr

/-- The `BTreeMap<PeerId, Arc<dyn _>>` containers, as association lists
with unique keys (insert removes any previous binding of the key, which is
observationally `BTreeMap::insert`). -/
def mapGet (k : PeerId) (m : List (PeerId × A)) : Option A :=
  match m.find? (fun p => p.1 = k) with
  | some p => some p.2
  | none => none

def mapInsert (k : PeerId) (v : A) (m : List (PeerId × A)) : List (PeerId × A) :=
  (k, v) :: m.filter (fun p => p.1 ≠ k)

/-- Number of bindings a map holds for key `k`. -/
def mapCount (k : PeerId) (m : List (PeerId × A)) : Nat :=
  (m.filter (fun p => p.1 = k)).length

/-- Rust `struct Inner` of `NetworkClient` (named `ClientInner` here; `Inner` is taken by Mathlib): the lock-protected state. -/
structure ClientInner (H1 H2 H3 : Type) where
  primary_peer_id : PeerId
  worker_to_primary_handler : Option H1
  primary_to_own_worker_handler : List (PeerId × H2)
  worker_to_own_worker_handler : List (PeerId × H3)
  shutdown : Bool
deriving DecidableEq, Repr

/-- Rust `NetworkClient::new(primary_peer_id)`. -/
def NetworkClient.new (H1 H2 H3 : Type) (primary_peer_id : PeerId) : ClientInner H1 H2 H3 :=
  { primary_peer_id := primary_peer_id
    worker_to_primary_handler := none
    primary_to_own_worker_handler := []
    worker_to_own_worker_handler := []
    shutdown := false }

/-- Rust `NetworkClient::new_from_keypair`. -/
def NetworkClient.new_from_keypair (H1 H2 H3 : Type) (kp : NetworkKeyPair) : ClientInner H1 H2 H3 :=
  NetworkClient.new H1 H2 H3 (peerIdOfKey kp.publicKey)

/-- Rust `NetworkClient::new_with_empty_id`. -/
def NetworkClient.new_with_empty_id (H1 H2 H3 : Type) : ClientInner H1 H2 H3 :=
  NetworkClient.new H1 H2 H3 empty_peer_id

/-- Rust `set_worker_to_primary_local_handler`. -/
def NetworkClient.set_worker_to_primary_local_handler
    (handler : H1) (st : ClientInner H1 H2 H3) : ClientInner H1 H2 H3 :=
  { st with worker_to_primary_handler := some handler }

/-- Rust `set_primary_to_worker_local_handler`. -/
def NetworkClient.set_primary_to_worker_local_handler
    (worker_id : PeerId) (handler : H2) (st : ClientInner H1 H2 H3) : ClientInner H1 H2 H3 :=
  { st with primary_to_own_worker_handler :=
      mapInsert worker_id handler st.primary_to_own_worker_handler }

/-- Rust `set_worker_to_worker_local_handler`. -/
def NetworkClient.set_worker_to_worker_local_handler
    (worker_id : PeerId) (handler : H3) (st : ClientInner H1 H2 H3) : ClientInner H1 H2 H3 :=
  { st with worker_to_own_worker_handler :=
      mapInsert worker_id handler st.worker_to_own_worker_handler }

/-- Rust `NetworkClient::shutdown`: early return when already shut down,
otherwise replace the whole state keeping only `primary_peer_id`. -/
def NetworkClient.shutdown (st : ClientInner H1 H2 H3) : ClientInner H1 H2 H3 :=
  if st.shutdown then st
  else
    { primary_peer_id := st.primary_peer_id
      worker_to_primary_handler := none
      primary_to_own_worker_handler := []
      worker_to_own_worker_handler := []
      shutdown := true }

/-- One fueled pass of `get_primary_to_own_worker_handler`'s
`for _ in 0..10` loop.  Each iteration takes a read-lock snapshot of the
state, checks `shutdown`, then the map; a miss sleeps 500 ms and retries.
Returns ((result, event trace), state after the call). -/
def getPrimaryToOwnWorkerGo (peer : PeerId) (st : ClientInner H1 H2 H3) :
    Nat → (Except LocalClientError H2 × List Event) × ClientInner H1 H2 H3
  | 0 => ((Except.error (LocalClientError.WorkerNotStarted peer), []), st)
  | n + 1 =>
    if st.shutdown then
      ((Except.error LocalClientError.ShuttingDown, [Event.attempt]), st)
    else
      match mapGet peer st.primary_to_own_worker_handler with
      | some handler => ((Except.ok handler, [Event.attempt]), st)
      | none =>
        let r := getPrimaryToOwnWorkerGo peer st n
        ((r.1.1, Event.attempt :: Event.sleepMs 500 :: r.1.2), r.2)

/-- Rust `get_primary_to_own_worker_handler` (10 attempts). -/
def NetworkClient.get_primary_to_own_worker_handler (peer : PeerId)
    (st : ClientInner H1 H2 H3) :
    (Except LocalClientError H2 × List Event) × ClientInner H1 H2 H3 :=
  getPrimaryToOwnWorkerGo peer st 10

/-- Fueled loop of `get_worker_to_own_primary_handler`.  On exhaustion the
source re-reads the lock to fetch `primary_peer_id` for the error. -/
def getWorkerToOwnPrimaryGo (st : ClientInner H1 H2 H3) :
    Nat → (Except LocalClientError H1 × List Event) × ClientInner H1 H2 H3
  | 0 =>
    ((Except.error (LocalClientError.PrimaryNotStarted st.primary_peer_id), []), st)
  | n + 1 =>
    if st.shutdown then
      ((Except.error LocalClientError.ShuttingDown, [Event.attempt]), st)
    else
      match st.worker_to_primary_handler with
      | some handler => ((Except.ok handler, [Event.attempt]), st)
      | none =>
        let r := getWorkerToOwnPrimaryGo st n
        ((r.1.1, Event.attempt :: Event.sleepMs 500 :: r.1.2), r.2)

/-- Rust `get_worker_to_own_primary_handler` (10 attempts). -/
def NetworkClient.get_worker_to_own_primary_handler (st : ClientInner H1 H2 H3) :
    (Except LocalClientError H1 × List Event) × ClientInner H1 H2 H3 :=
  getWorkerToOwnPrimaryGo st 10

/-- Fueled loop of `_get_own_worker_to_worker_handler`. -/
def getOwnWorkerToWorkerGo (peer : PeerId) (st : ClientInner H1 H2 H3) :
    Nat → (Except LocalClientError H3 × List Event) × ClientInner H1 H2 H3
  | 0 => ((Except.error (LocalClientError.WorkerNotStarted peer), []), st)
  | n + 1 =>
    if st.shutdown then
      ((Except.error LocalClientError.ShuttingDown, [Event.attempt]), st)
    else
      match mapGet peer st.worker_to_own_worker_handler with
      | some handler => ((Except.ok handler, [Event.attempt]), st)
      | none =>
        let r := getOwnWorkerToWorkerGo peer st n
        ((r.1.1, Event.attempt :: Event.sleepMs 500 :: r.1.2), r.2)

/-- Rust `_get_own_worker_to_worker_handler` (10 attempts). -/
def NetworkClient.get_own_worker_to_worker_handler (peer : PeerId)
    (st : ClientInner H1 H2 H3) :
    (Except LocalClientError H3 × List Event) × ClientInner H1 H2 H3 :=
  getOwnWorkerToWorkerGo peer st 10

/-- The event trace of `n` failed attempts each followed by a 500 ms sleep. -/
def retrySchedule (n : Nat) : List Event :=
  (List.replicate n [Event.attempt, Event.sleepMs 500]).flatten


/-- The mutating and reading operations a holder of a `NetworkClient`
handle can issue, used to reason about arbitrary operation sequences. -/
inductive ClientOp (H1 H2 H3 : Type) where
  | setWorkerToPrimary (handler : H1)
  | setPrimaryToWorker (worker_id : PeerId) (handler : H2)
  | setWorkerToWorker (worker_id : PeerId) (handler : H3)
  | shutdownCall
  | getPrimaryToOwnWorker (peer : PeerId)
  | getWorkerToOwnPrimary
  | getOwnWorkerToWorker (peer : PeerId)
deriving DecidableEq, Repr

/-- Effect of one operation on the registry state. -/
def applyOp (st : ClientInner H1 H2 H3) : ClientOp H1 H2 H3 → ClientInner H1 H2 H3
  | ClientOp.setWorkerToPrimary h =>
      NetworkClient.set_worker_to_primary_local_handler h st
  | ClientOp.setPrimaryToWorker w h =>
      NetworkClient.set_primary_to_worker_local_handler w h st
  | ClientOp.setWorkerToWorker w h =>
      NetworkClient.set_worker_to_worker_local_handler w h st
  | ClientOp.shutdownCall => NetworkClient.shutdown st
  | ClientOp.getPrimaryToOwnWorker p =>
      (NetworkClient.get_primary_to_own_worker_handler p st).2
  | ClientOp.getWorkerToOwnPrimary =>
      (NetworkClient.get_worker_to_own_primary_handler st).2
  | ClientOp.getOwnWorkerToWorker p =>
      (NetworkClient.get_own_worker_to_worker_handler p st).2

/-- Effect of a sequence of operations, executed left to right. -/
def applyOps (ops : List (ClientOp H1 H2 H3)) (st : ClientInner H1 H2 H3) :
    ClientInner H1 H2 H3 :=
  ops.foldl applyOp st

/-- Registration operations (the three setters). -/
def ClientOp.isRegistration : ClientOp H1 H2 H3 → Bool
  | ClientOp.setWorkerToPrimary _ => true
  | ClientOp.setPrimaryToWorker _ _ => true
  | ClientOp.setWorkerToWorker _ _ => true
  | _ => false

/-- All three handler containers are empty. -/
def containersEmpty (st : ClientInner H1 H2 H3) : Prop :=
  st.worker_to_primary_handler = none
    ∧ st.primary_to_own_worker_handler = []
    ∧ st.worker_to_own_worker_handler = []

instance (st : ClientInner H1 H2 H3) [DecidableEq H1] [DecidableEq H2]
    [DecidableEq H3] : Decidable (containersEmpty st) := by
  unfold containersEmpty
  infer_instance

/-- Rust `PrimaryToOwnWorkerClient::synchronize` for `NetworkClient`: resolve
the handler for the identity derived from the worker's public network key,
then forward the message once.  The external handler call
`c.synchronize(Request::new(message))` is modelled by `fwd`, and the
wrapping of its error by `format!` into `LocalClientError::Internal` by
`fmt`.  Besides the result, the returned pair records the list of messages
actually forwarded, and the state after the call. -/
def PrimaryToOwnWorkerClient.synchronize (E M : Type)
    (fwd : H2 → M → Except E Unit) (fmt : E → String)
    (worker_peer : NetworkPublicKey) (message : M)
    (st : ClientInner H1 H2 H3) :
    (Except LocalClientError Unit × List M) × ClientInner H1 H2 H3 :=
  let r := NetworkClient.get_primary_to_own_worker_handler
    (peerIdOfKey worker_peer) st
  match r.1.1 with
  | Except.error e => ((Except.error e, []), r.2)
  | Except.ok c =>
    match fwd c message with
    | Except.error e =>
        ((Except.error (LocalClientError.Internal (fmt e)), [message]), r.2)
    | Except.ok _ => ((Except.ok (), [message]), r.2)

/-- Rust `WorkerToOwnPrimaryClient::report_our_batch` for `NetworkClient`:
resolve the worker-to-primary handler, then forward the request once.
`fwd` models the external `c.report_our_batch(Request::new(request))`. -/
def WorkerToOwnPrimaryClient.report_our_batch (E M : Type)
    (fwd : H1 → M → Except E Unit) (fmt : E → String) (request : M)
    (st : ClientInner H1 H2 H3) :
    (Except LocalClientError Unit × List M) × ClientInner H1 H2 H3 :=
  let r := NetworkClient.get_worker_to_own_primary_handler st
  match r.1.1 with
  | Except.error e => ((Except.error e, []), r.2)
  | Except.ok c =>
    match fwd c request with
    | Except.error e =>
        ((Except.error (LocalClientError.Internal (fmt e)), [request]), r.2)
    | Except.ok _ => ((Except.ok (), [request]), r.2)

/-- Rust `WorkerToOwnPrimaryClient::report_others_batch` for `NetworkClient`:
same shape as `report_our_batch`, forwarding via the handler's
`report_others_batch` method (modelled by its own `fwd`). -/
def WorkerToOwnPrimaryClient.report_others_batch (E M : Type)
    (fwd : H1 → M → Except E Unit) (fmt : E → String) (request : M)
    (st : ClientInner H1 H2 H3) :
    (Except LocalClientError Unit × List M) × ClientInner H1 H2 H3 :=
  let r := NetworkClient.get_worker_to_own_primary_handler st
  match r.1.1 with
  | Except.error e => ((Except.error e, []), r.2)
  | Except.ok c =>
    match fwd c request with
    | Except.error e =>
        ((Except.error (LocalClientError.Internal (fmt e)), [request]), r.2)
    | Except.ok _ => ((Except.ok (), [request]), r.2)

/-- Rust `prometheus::proto::MetricType`. -/
inductive MetricType where
  | counter
  | gauge
  | summary
  | untyped
  | histogram
deriving DecidableEq, Repr

/-- Rust `prometheus::proto::Metric`.  The payload sub-messages are opaque to
`histogram_relay.rs`, so they are kept abstract: `Pay` for the
gauge/counter/summary/untyped payloads, `Hst` for the histogram payload;
labels are name/value pairs and `timestamp_ms` a signed integer. -/
structure Metric (Pay Hst : Type) where
  label : List (String × String)
  gauge : Option Pay
  counter : Option Pay
  summary : Option Pay
  untyped : Option Pay
  histogram : Option Hst
  timestamp_ms : Int
deriving DecidableEq, Repr

/-- Rust `Metric::default()`: all fields empty. -/
def Metric.empty (Pay Hst : Type) : Metric Pay Hst :=
  { label := []
    gauge := none
    counter := none
    summary := none
    untyped := none
    histogram := none
    timestamp_ms := 0 }

/-- Rust `prometheus::proto::MetricFamily`, restricted to the fields
`histogram_relay.rs` reads or writes. -/
structure MetricFamily (Pay Hst : Type) where
  name : String
  help : String
  field_type : MetricType
  metric : List (Metric Pay Hst)
deriving DecidableEq, Repr

/-- Rust `fn extract_histograms`: per family, keep name/help/type and rebuild
each metric from `Metric::default()` keeping only label, histogram and
timestamp. -/
def extract_histograms (data : List (MetricFamily Pay Hst)) :
    List (MetricFamily Pay Hst) :=
  data.map (fun mf =>
    { name := mf.name
      help := mf.help
      field_type := mf.field_type
      metric := mf.metric.map (fun m =>
        { Metric.empty Pay Hst with
            label := m.label
            histogram := m.histogram
            timestamp_ms := m.timestamp_ms }) })

/-- Rust `HistogramRelay`, a `VecDeque<Vec<MetricFamily>>` behind a lock; the
front of the deque is the head of the list. -/
def HistogramRelay.new (Pay Hst : Type) : List (List (MetricFamily Pay Hst)) :=
  []

/-- Rust `HistogramRelay::submit`, a `push_back(data)`. -/
def HistogramRelay.submit (buf : List (List (MetricFamily Pay Hst)))
    (data : List (MetricFamily Pay Hst)) : List (List (MetricFamily Pay Hst)) :=
  buf ++ [data]

/-- Rust `HistogramRelay::export` (named `exportText` here because `export` is a
Lean keyword): `pop_front()`; an empty buffer bails with an error,
otherwise the popped batch is filtered through `extract_histograms` and
encoded.  The external `prometheus::TextEncoder::encode_to_string` is
modelled by `encode`.  Returns the result and the buffer afterwards. -/
def HistogramRelay.exportText
    (encode : List (MetricFamily Pay Hst) → Except String String)
    (buf : List (List (MetricFamily Pay Hst))) :
    Except String String × List (List (MetricFamily Pay Hst)) :=
  match buf with
  | [] => (Except.error "no data in HistogramRelay to scrape", [])
  | data :: rest =>
    match encode (extract_histograms data) with
    | Except.ok s => (Except.ok s, rest)
    | Except.error e => (Except.error e, rest)

/-- Concrete metric families and encoder used to evaluate the relay on
concrete runs: the encoder prints the comma-separated family names. -/
def famA : MetricFamily Nat Nat :=
  { name := "a", help := "", field_type := MetricType.histogram, metric := [] }

def famB : MetricFamily Nat Nat :=
  { name := "b", help := "", field_type := MetricType.histogram, metric := [] }

def encodeNames (fams : List (MetricFamily Nat Nat)) : Except String String :=
  Except.ok (String.intercalate "," (fams.map (fun mf => mf.name)))

theorem mapGet_mapInsert_self (k : PeerId) (v : A) (m : List (PeerId × A)) :
    mapGet k (mapInsert k v m) = some v := by
  simp [mapGet, mapInsert, List.find?]

theorem mapCount_mapInsert_self (k : PeerId) (v : A) (m : List (PeerId × A)) :
    mapCount k (mapInsert k v m) = 1 := by
  unfold mapCount mapInsert
  rw [List.filter_cons]
  have hnil : ((m.filter (fun p => p.1 ≠ k)).filter (fun p => p.1 = k)) = [] := by
    rw [List.filter_eq_nil_iff]
    intro p hp
    rcases List.mem_filter.mp hp with ⟨hmem, hne⟩
    simp at hne ⊢
    exact hne
  simp [hnil]

theorem retrySchedule_succ (n : Nat) :
    retrySchedule (n + 1) = Event.attempt :: Event.sleepMs 500 :: retrySchedule n := rfl

theorem getPrimaryToOwnWorkerGo_state (peer : PeerId)
    (st : ClientInner H1 H2 H3) (n : Nat) :
    (getPrimaryToOwnWorkerGo peer st n).2 = st := by
  induction n with
  | zero => rfl
  | succ n ih =>
    unfold getPrimaryToOwnWorkerGo
    cases hs : st.shutdown with
    | true => simp [hs]
    | false =>
      cases hm : mapGet peer st.primary_to_own_worker_handler with
      | some h => simp [hs, hm]
      | none => simp [hs, hm, ih]

theorem getWorkerToOwnPrimaryGo_state (st : ClientInner H1 H2 H3) (n : Nat) :
    (getWorkerToOwnPrimaryGo st n).2 = st := by
  induction n with
  | zero => rfl
  | succ n ih =>
    unfold getWorkerToOwnPrimaryGo
    cases hs : st.shutdown with
    | true => simp [hs]
    | false =>
      cases hm : st.worker_to_primary_handler with
      | some h => simp [hs, hm]
      | none => simp [hs, hm, ih]

theorem getOwnWorkerToWorkerGo_state (peer : PeerId)
    (st : ClientInner H1 H2 H3) (n : Nat) :
    (getOwnWorkerToWorkerGo peer st n).2 = st := by
  induction n with
  | zero => rfl
  | succ n ih =>
    unfold getOwnWorkerToWorkerGo
    cases hs : st.shutdown with
    | true => simp [hs]
    | false =>
      cases hm : mapGet peer st.worker_to_own_worker_handler with
      | some h => simp [hs, hm]
      | none => simp [hs, hm, ih]

theorem getPrimaryToOwnWorkerGo_miss (peer : PeerId)
    (st : ClientInner H1 H2 H3) (hs : st.shutdown = false)
    (hm : mapGet peer st.primary_to_own_worker_handler = none) (n : Nat) :
    getPrimaryToOwnWorkerGo peer st n
      = ((Except.error (LocalClientError.WorkerNotStarted peer),
          retrySchedule n), st) := by
  induction n with
  | zero => rfl
  | succ n ih =>
    unfold getPrimaryToOwnWorkerGo
    simp [hs, hm, ih, retrySchedule_succ]

theorem getWorkerToOwnPrimaryGo_miss (st : ClientInner H1 H2 H3)
    (hs : st.shutdown = false) (hm : st.worker_to_primary_handler = none)
    (n : Nat) :
    getWorkerToOwnPrimaryGo st n
      = ((Except.error (LocalClientError.PrimaryNotStarted st.primary_peer_id),
          retrySchedule n), st) := by
  induction n with
  | zero => rfl
  | succ n ih =>
    unfold getWorkerToOwnPrimaryGo
    simp [hs, hm, ih, retrySchedule_succ]

theorem getOwnWorkerToWorkerGo_miss (peer : PeerId)
    (st : ClientInner H1 H2 H3) (hs : st.shutdown = false)
    (hm : mapGet peer st.worker_to_own_worker_handler = none) (n : Nat) :
    getOwnWorkerToWorkerGo peer st n
      = ((Except.error (LocalClientError.WorkerNotStarted peer),
          retrySchedule n), st) := by
  induction n with
  | zero => rfl
  | succ n ih =>
    unfold getOwnWorkerToWorkerGo
    simp [hs, hm, ih, retrySchedule_succ]

theorem getPrimaryToOwnWorkerGo_shutdown (peer : PeerId)
    (st : ClientInner H1 H2 H3) (hs : st.shutdown = true) (n : Nat) :
    getPrimaryToOwnWorkerGo peer st (n + 1)
      = ((Except.error LocalClientError.ShuttingDown, [Event.attempt]), st) := by
  unfold getPrimaryToOwnWorkerGo
  simp [hs]

theorem getWorkerToOwnPrimaryGo_shutdown (st : ClientInner H1 H2 H3)
    (hs : st.shutdown = true) (n : Nat) :
    getWorkerToOwnPrimaryGo st (n + 1)
      = ((Except.error LocalClientError.ShuttingDown, [Event.attempt]), st) := by
  unfold getWorkerToOwnPrimaryGo
  simp [hs]

theorem getOwnWorkerToWorkerGo_shutdown (peer : PeerId)
    (st : ClientInner H1 H2 H3) (hs : st.shutdown = true) (n : Nat) :
    getOwnWorkerToWorkerGo peer st (n + 1)
      = ((Except.error LocalClientError.ShuttingDown, [Event.attempt]), st) := by
  unfold getOwnWorkerToWorkerGo
  simp [hs]

theorem getPrimaryToOwnWorkerGo_hit (peer : PeerId)
    (st : ClientInner H1 H2 H3) (h : H2) (hs : st.shutdown = false)
    (hm : mapGet peer st.primary_to_own_worker_handler = some h) (n : Nat) :
    getPrimaryToOwnWorkerGo peer st (n + 1)
      = ((Except.ok h, [Event.attempt]), st) := by
  unfold getPrimaryToOwnWorkerGo
  simp [hs, hm]

theorem getWorkerToOwnPrimaryGo_hit (st : ClientInner H1 H2 H3) (h : H1)
    (hs : st.shutdown = false) (hm : st.worker_to_primary_handler = some h)
    (n : Nat) :
    getWorkerToOwnPrimaryGo st (n + 1)
      = ((Except.ok h, [Event.attempt]), st) := by
  unfold getWorkerToOwnPrimaryGo
  simp [hs, hm]

theorem getOwnWorkerToWorkerGo_hit (peer : PeerId)
    (st : ClientInner H1 H2 H3) (h : H3) (hs : st.shutdown = false)
    (hm : mapGet peer st.worker_to_own_worker_handler = some h) (n : Nat) :
    getOwnWorkerToWorkerGo peer st (n + 1)
      = ((Except.ok h, [Event.attempt]), st) := by
  unfold getOwnWorkerToWorkerGo
  simp [hs, hm]

theorem get_primary_to_own_worker_handler_state (peer : PeerId)
    (st : ClientInner H1 H2 H3) :
    (NetworkClient.get_primary_to_own_worker_handler peer st).2 = st :=
  getPrimaryToOwnWorkerGo_state peer st 10

theorem get_worker_to_own_primary_handler_state (st : ClientInner H1 H2 H3) :
    (NetworkClient.get_worker_to_own_primary_handler st).2 = st :=
  getWorkerToOwnPrimaryGo_state st 10

theorem get_own_worker_to_worker_handler_state (peer : PeerId)
    (st : ClientInner H1 H2 H3) :
    (NetworkClient.get_own_worker_to_worker_handler peer st).2 = st :=
  getOwnWorkerToWorkerGo_state peer st 10

theorem applyOp_shutdown_mono (st : ClientInner H1 H2 H3)
    (op : ClientOp H1 H2 H3) (hs : st.shutdown = true) :
    (applyOp st op).shutdown = true := by
  cases op <;>
    simp [applyOp, NetworkClient.set_worker_to_primary_local_handler,
      NetworkClient.set_primary_to_worker_local_handler,
      NetworkClient.set_worker_to_worker_local_handler,
      NetworkClient.shutdown, hs,
      get_primary_to_own_worker_handler_state,
      get_worker_to_own_primary_handler_state,
      get_own_worker_to_worker_handler_state]

theorem applyOps_shutdown_mono (ops : List (ClientOp H1 H2 H3))
    (st : ClientInner H1 H2 H3) (hs : st.shutdown = true) :
    (applyOps ops st).shutdown = true := by
  induction ops generalizing st with
  | nil => exact hs
  | cons op ops ih => exact ih (applyOp st op) (applyOp_shutdown_mono st op hs)

theorem applyOp_nonreg_fixed (st : ClientInner H1 H2 H3)
    (op : ClientOp H1 H2 H3) (hs : st.shutdown = true)
    (hr : op.isRegistration = false) : applyOp st op = st := by
  cases op <;> simp [ClientOp.isRegistration] at hr <;>
    simp [applyOp, NetworkClient.shutdown, hs,
      get_primary_to_own_worker_handler_state,
      get_worker_to_own_primary_handler_state,
      get_own_worker_to_worker_handler_state]

theorem applyOps_nonreg_fixed (ops : List (ClientOp H1 H2 H3))
    (st : ClientInner H1 H2 H3) (hs : st.shutdown = true)
    (hr : ∀ op ∈ ops, op.isRegistration = false) : applyOps ops st = st := by
  induction ops with
  | nil => rfl
  | cons op ops ih =>
    have h1 : applyOp st op = st :=
      applyOp_nonreg_fixed st op hs (hr op (List.mem_cons_self op ops))
    have h2 : applyOps (op :: ops) st = applyOps ops (applyOp st op) := rfl
    rw [h2, h1]
    exact ih (fun o ho => hr o (List.mem_cons_of_mem op ho))
/-- C9: the registry constructed via the zero-identity constructor has a
primary identity of exactly 32 zero bytes. -/
theorem new_with_empty_id_primary_identity (H1 H2 H3 : Type) :
    (NetworkClient.new_with_empty_id H1 H2 H3).primary_peer_id.bytes
        = List.replicate 32 0
      ∧ (NetworkClient.new_with_empty_id H1 H2 H3).primary_peer_id.bytes.length = 32
      ∧ (NetworkClient.new_with_empty_id H1 H2 H3).primary_peer_id.bytes.all
          (fun b => b = 0) = true := by
  exact ⟨rfl, rfl, rfl⟩

/-- C10: every lookup, whatever it returns, leaves the entire registry
state (all three containers, the shutdown flag and the primary identity)
unchanged. -/
theorem lookups_preserve_registry_state (H1 H2 H3 : Type)
    (st : ClientInner H1 H2 H3) (peer : PeerId) :
    (NetworkClient.get_primary_to_own_worker_handler peer st).2 = st
      ∧ (NetworkClient.get_worker_to_own_primary_handler st).2 = st
      ∧ (NetworkClient.get_own_worker_to_worker_handler peer st).2 = st :=
  ⟨get_primary_to_own_worker_handler_state peer st,
   get_worker_to_own_primary_handler_state st,
   get_own_worker_to_worker_handler_state peer st⟩

/-- C3: a lookup started while the shutdown flag is true fails with
`ShuttingDown` on its first attempt, with no 500 ms suspension and no
further attempts, whatever handlers the state holds. -/
theorem lookup_during_shutdown_fails_immediately (H1 H2 H3 : Type)
    (st : ClientInner H1 H2 H3) (peer : PeerId) (hs : st.shutdown = true) :
    NetworkClient.get_primary_to_own_worker_handler peer st
        = ((Except.error LocalClientError.ShuttingDown, [Event.attempt]), st)
      ∧ NetworkClient.get_worker_to_own_primary_handler st
          = ((Except.error LocalClientError.ShuttingDown, [Event.attempt]), st)
      ∧ NetworkClient.get_own_worker_to_worker_handler peer st
          = ((Except.error LocalClientError.ShuttingDown, [Event.attempt]), st) :=
  ⟨getPrimaryToOwnWorkerGo_shutdown peer st hs 9,
   getWorkerToOwnPrimaryGo_shutdown st hs 9,
   getOwnWorkerToWorkerGo_shutdown peer st hs 9⟩

/-- Witness for C3 at a concrete shut-down registry. -/
theorem lookup_during_shutdown_witness :
    (NetworkClient.shutdown
        (NetworkClient.new Nat Nat Nat empty_peer_id)).shutdown = true
      ∧ NetworkClient.get_worker_to_own_primary_handler
          (NetworkClient.shutdown (NetworkClient.new Nat Nat Nat empty_peer_id))
        = ((Except.error LocalClientError.ShuttingDown, [Event.attempt]),
           NetworkClient.shutdown (NetworkClient.new Nat Nat Nat empty_peer_id)) :=
  ⟨rfl,
   (lookup_during_shutdown_fails_immediately Nat Nat Nat
      (NetworkClient.shutdown (NetworkClient.new Nat Nat Nat empty_peer_id))
      ⟨[7]⟩ rfl).2.1⟩

/-- C6: registering a handler for identity X (keyed roles) or registering
the worker-to-primary handler (unkeyed role) on a non-shut-down registry
and then immediately performing the corresponding lookup succeeds on the
first attempt with exactly that handler. -/
theorem register_then_lookup_returns_handler (H1 H2 H3 : Type)
    (st : ClientInner H1 H2 H3) (x : PeerId) (h1 : H1) (h2 : H2) (h3 : H3)
    (hs : st.shutdown = false) :
    NetworkClient.get_primary_to_own_worker_handler x
        (NetworkClient.set_primary_to_worker_local_handler x h2 st)
      = ((Except.ok h2, [Event.attempt]),
         NetworkClient.set_primary_to_worker_local_handler x h2 st)
      ∧ NetworkClient.get_own_worker_to_worker_handler x
          (NetworkClient.set_worker_to_worker_local_handler x h3 st)
        = ((Except.ok h3, [Event.attempt]),
           NetworkClient.set_worker_to_worker_local_handler x h3 st)
      ∧ NetworkClient.get_worker_to_own_primary_handler
          (NetworkClient.set_worker_to_primary_local_handler h1 st)
        = ((Except.ok h1, [Event.attempt]),
           NetworkClient.set_worker_to_primary_local_handler h1 st) := by
  refine ⟨?_, ?_, ?_⟩
  · exact getPrimaryToOwnWorkerGo_hit x
      (NetworkClient.set_primary_to_worker_local_handler x h2 st) h2 hs
      (mapGet_mapInsert_self x h2 st.primary_to_own_worker_handler) 9
  · exact getOwnWorkerToWorkerGo_hit x
      (NetworkClient.set_worker_to_worker_local_handler x h3 st) h3 hs
      (mapGet_mapInsert_self x h3 st.worker_to_own_worker_handler) 9
  · exact getWorkerToOwnPrimaryGo_hit
      (NetworkClient.set_worker_to_primary_local_handler h1 st) h1 hs rfl 9

/-- Witness for C6 at a concrete registry, identity and handlers. -/
theorem register_then_lookup_witness :
    (NetworkClient.new Nat Nat Nat empty_peer_id).shutdown = false
      ∧ NetworkClient.get_primary_to_own_worker_handler ⟨[3]⟩
          (NetworkClient.set_primary_to_worker_local_handler ⟨[3]⟩ 42
            (NetworkClient.new Nat Nat Nat empty_peer_id))
        = ((Except.ok 42, [Event.attempt]),
           NetworkClient.set_primary_to_worker_local_handler ⟨[3]⟩ 42
             (NetworkClient.new Nat Nat Nat empty_peer_id)) :=
  ⟨rfl,
   (register_then_lookup_returns_handler Nat Nat Nat
      (NetworkClient.new Nat Nat Nat empty_peer_id) ⟨[3]⟩ 1 42 2 rfl).1⟩

/-- C2: looking up a target that is never registered, with the shutdown
flag false, performs exactly the 10 maximum attempts, consecutive attempts
separated by a fixed 500 ms suspension (the trace is
`retrySchedule 10 = [attempt, sleepMs 500, attempt, sleepMs 500, ...]`),
and fails with `WorkerNotStarted(peer)` for the two keyed worker lookups
and `PrimaryNotStarted(primary_peer_id)` for the primary lookup. -/
theorem lookup_unregistered_exhausts_retries (H1 H2 H3 : Type)
    (st : ClientInner H1 H2 H3) (peer : PeerId) (hs : st.shutdown = false)
    (h2 : mapGet peer st.primary_to_own_worker_handler = none)
    (h1 : st.worker_to_primary_handler = none)
    (h3 : mapGet peer st.worker_to_own_worker_handler = none) :
    NetworkClient.get_primary_to_own_worker_handler peer st
        = ((Except.error (LocalClientError.WorkerNotStarted peer),
            retrySchedule 10), st)
      ∧ NetworkClient.get_worker_to_own_primary_handler st
          = ((Except.error (LocalClientError.PrimaryNotStarted st.primary_peer_id),
              retrySchedule 10), st)
      ∧ NetworkClient.get_own_worker_to_worker_handler peer st
          = ((Except.error (LocalClientError.WorkerNotStarted peer),
              retrySchedule 10), st)
      ∧ (retrySchedule 10).count Event.attempt = 10
      ∧ (retrySchedule 10).count (Event.sleepMs 500) = 10 := by
  refine ⟨getPrimaryToOwnWorkerGo_miss peer st hs h2 10,
    getWorkerToOwnPrimaryGo_miss st hs h1 10,
    getOwnWorkerToWorkerGo_miss peer st hs h3 10, ?_, ?_⟩ <;> rfl

/-- Witness for C2 on a freshly constructed registry and an unregistered
identity. -/
theorem lookup_unregistered_witness :
    (NetworkClient.new Nat Nat Nat empty_peer_id).shutdown = false
      ∧ NetworkClient.get_primary_to_own_worker_handler ⟨[1]⟩
          (NetworkClient.new Nat Nat Nat empty_peer_id)
        = ((Except.error (LocalClientError.WorkerNotStarted ⟨[1]⟩),
            retrySchedule 10), NetworkClient.new Nat Nat Nat empty_peer_id)
      ∧ NetworkClient.get_worker_to_own_primary_handler
          (NetworkClient.new Nat Nat Nat empty_peer_id)
        = ((Except.error (LocalClientError.PrimaryNotStarted empty_peer_id),
            retrySchedule 10), NetworkClient.new Nat Nat Nat empty_peer_id) :=
  ⟨rfl,
   (lookup_unregistered_exhausts_retries Nat Nat Nat
      (NetworkClient.new Nat Nat Nat empty_peer_id) ⟨[1]⟩ rfl rfl rfl rfl).1,
   (lookup_unregistered_exhausts_retries Nat Nat Nat
      (NetworkClient.new Nat Nat Nat empty_peer_id) ⟨[1]⟩ rfl rfl rfl rfl).2.1⟩

/-- Counterexample to C1 as stated: from a fresh registry, calling
`shutdown` and then `set_worker_to_primary_local_handler` yields a state
whose shutdown flag is true but whose worker-to-primary container is not
empty — registration calls are not guarded by the shutdown flag, so the
containers do not remain empty under every subsequent operation. -/
theorem shutdown_then_register_repopulates :
    (applyOps [ClientOp.shutdownCall, ClientOp.setWorkerToPrimary 0]
        (NetworkClient.new Nat Nat Nat empty_peer_id)).shutdown = true
      ∧ (applyOps [ClientOp.shutdownCall, ClientOp.setWorkerToPrimary 0]
          (NetworkClient.new Nat Nat Nat empty_peer_id)).worker_to_primary_handler
        = some 0
      ∧ some (0 : Nat) ≠ none :=
  ⟨rfl, rfl, by decide⟩

/-- C1, amended: the shutdown flag never reverts to false under any
sequence of operations; a `shutdown()` call from a non-shut-down state
leaves all three containers empty with the flag set; and once the flag is
true, any sequence of non-registration operations leaves the state
entirely unchanged.  (A later registration call, however, repopulates its
container even while the flag stays true.) -/
theorem shutdown_flag_monotone_and_clears (H1 H2 H3 : Type)
    (st : ClientInner H1 H2 H3) (ops : List (ClientOp H1 H2 H3)) :
    (st.shutdown = true → (applyOps ops st).shutdown = true)
      ∧ (st.shutdown = false →
          containersEmpty (NetworkClient.shutdown st)
            ∧ (NetworkClient.shutdown st).shutdown = true)
      ∧ (st.shutdown = true →
          (∀ op ∈ ops, op.isRegistration = false) → applyOps ops st = st) := by
  refine ⟨fun hs => applyOps_shutdown_mono ops st hs, fun hs => ?_,
    fun hs hr => applyOps_nonreg_fixed ops st hs hr⟩
  constructor
  · unfold containersEmpty NetworkClient.shutdown
    simp [hs]
  · unfold NetworkClient.shutdown
    simp [hs]

/-- Witness for C1 (amended) on a shut-down registry and a sequence of
non-registration operations. -/
theorem shutdown_flag_monotone_witness :
    ((NetworkClient.shutdown (NetworkClient.new Nat Nat Nat empty_peer_id)).shutdown = true
      ∧ (NetworkClient.new Nat Nat Nat empty_peer_id).shutdown = false
      ∧ (∀ op ∈ ([ClientOp.shutdownCall, ClientOp.getWorkerToOwnPrimary] :
            List (ClientOp Nat Nat Nat)), op.isRegistration = false))
      ∧ (applyOps [ClientOp.shutdownCall, ClientOp.getWorkerToOwnPrimary]
            (NetworkClient.shutdown (NetworkClient.new Nat Nat Nat empty_peer_id))).shutdown = true
      ∧ containersEmpty
          (NetworkClient.shutdown (NetworkClient.new Nat Nat Nat empty_peer_id))
      ∧ applyOps [ClientOp.shutdownCall, ClientOp.getWorkerToOwnPrimary]
            (NetworkClient.shutdown (NetworkClient.new Nat Nat Nat empty_peer_id))
          = NetworkClient.shutdown (NetworkClient.new Nat Nat Nat empty_peer_id) := by
  refine ⟨⟨rfl, rfl, by decide⟩, ?_, ?_, ?_⟩
  · exact (shutdown_flag_monotone_and_clears Nat Nat Nat
      (NetworkClient.shutdown (NetworkClient.new Nat Nat Nat empty_peer_id))
      [ClientOp.shutdownCall, ClientOp.getWorkerToOwnPrimary]).1 rfl
  · exact ((shutdown_flag_monotone_and_clears Nat Nat Nat
      (NetworkClient.new Nat Nat Nat empty_peer_id) []).2.1 rfl).1
  · exact (shutdown_flag_monotone_and_clears Nat Nat Nat
      (NetworkClient.shutdown (NetworkClient.new Nat Nat Nat empty_peer_id))
      [ClientOp.shutdownCall, ClientOp.getWorkerToOwnPrimary]).2.2 rfl
      (by decide)

/-- Counterexample to C4 as stated: in the reachable state obtained by
`shutdown()` followed by a registration, the flag is already true, so a
further `shutdown()` returns early and does not empty the repopulated
worker-to-primary container — `shutdown()` does not empty the containers
in every state. -/
theorem shutdown_not_always_clearing :
    (applyOps [ClientOp.shutdownCall, ClientOp.setWorkerToPrimary 0]
        (NetworkClient.new Nat Nat Nat empty_peer_id)).shutdown = true
      ∧ (NetworkClient.shutdown
          (applyOps [ClientOp.shutdownCall, ClientOp.setWorkerToPrimary 0]
            (NetworkClient.new Nat Nat Nat empty_peer_id))).worker_to_primary_handler
        ≠ none :=
  ⟨rfl, by decide⟩

/-- C4, amended: `shutdown()` from a state whose flag is false atomically
empties the three containers, sets the flag and preserves
`primary_peer_id`; from a state whose flag is already true it returns with
no effect (there is no error to report: the call is infallible); invoking
it twice always leaves the state identical to invoking it once. -/
theorem shutdown_idempotent_behavior (H1 H2 H3 : Type)
    (st : ClientInner H1 H2 H3) :
    (st.shutdown = false →
        NetworkClient.shutdown st =
          { primary_peer_id := st.primary_peer_id
            worker_to_primary_handler := none
            primary_to_own_worker_handler := []
            worker_to_own_worker_handler := []
            shutdown := true })
      ∧ (st.shutdown = true → NetworkClient.shutdown st = st)
      ∧ NetworkClient.shutdown (NetworkClient.shutdown st)
          = NetworkClient.shutdown st
      ∧ (NetworkClient.shutdown st).primary_peer_id = st.primary_peer_id
      ∧ (NetworkClient.shutdown st).shutdown = true := by
  cases hs : st.shutdown with
  | false =>
    refine ⟨fun _ => ?_, fun h => absurd h (by simp), ?_, ?_, ?_⟩ <;>
      simp [NetworkClient.shutdown, hs]
  | true =>
    refine ⟨fun h => absurd h (by simp), fun _ => ?_, ?_, ?_, ?_⟩ <;>
      simp [NetworkClient.shutdown, hs]

/-- Witness for C4 (amended) at concrete fresh and shut-down registries. -/
theorem shutdown_idempotent_witness :
    (NetworkClient.new Nat Nat Nat empty_peer_id).shutdown = false
      ∧ NetworkClient.shutdown (NetworkClient.new Nat Nat Nat empty_peer_id)
          = { primary_peer_id := empty_peer_id
              worker_to_primary_handler := none
              primary_to_own_worker_handler := []
              worker_to_own_worker_handler := []
              shutdown := true }
      ∧ NetworkClient.shutdown
            (NetworkClient.shutdown (NetworkClient.new Nat Nat Nat empty_peer_id))
          = NetworkClient.shutdown (NetworkClient.new Nat Nat Nat empty_peer_id) :=
  ⟨rfl,
   (shutdown_idempotent_behavior Nat Nat Nat
      (NetworkClient.new Nat Nat Nat empty_peer_id)).1 rfl,
   (shutdown_idempotent_behavior Nat Nat Nat
      (NetworkClient.new Nat Nat Nat empty_peer_id)).2.2.1⟩

/-- C7: registering handler A for identity X and then handler B for X in
the same role leaves exactly one handler stored under X (for the keyed
roles), and a lookup of X on the resulting state returns B and, when
A ≠ B, never A.  The unkeyed worker-to-primary role behaves likewise. -/
theorem register_overwrites_previous (H1 H2 H3 : Type)
    (st : ClientInner H1 H2 H3) (x : PeerId)
    (a1 b1 : H1) (a2 b2 : H2) (a3 b3 : H3) (hs : st.shutdown = false) :
    (mapGet x (NetworkClient.set_primary_to_worker_local_handler x b2
          (NetworkClient.set_primary_to_worker_local_handler x a2 st)).primary_to_own_worker_handler
        = some b2
      ∧ mapCount x (NetworkClient.set_primary_to_worker_local_handler x b2
          (NetworkClient.set_primary_to_worker_local_handler x a2 st)).primary_to_own_worker_handler
        = 1
      ∧ (NetworkClient.get_primary_to_own_worker_handler x
          (NetworkClient.set_primary_to_worker_local_handler x b2
            (NetworkClient.set_primary_to_worker_local_handler x a2 st))).1.1
        = Except.ok b2
      ∧ (a2 ≠ b2 →
          (NetworkClient.get_primary_to_own_worker_handler x
            (NetworkClient.set_primary_to_worker_local_handler x b2
              (NetworkClient.set_primary_to_worker_local_handler x a2 st))).1.1
          ≠ Except.ok a2))
    ∧ (mapGet x (NetworkClient.set_worker_to_worker_local_handler x b3
          (NetworkClient.set_worker_to_worker_local_handler x a3 st)).worker_to_own_worker_handler
        = some b3
      ∧ mapCount x (NetworkClient.set_worker_to_worker_local_handler x b3
          (NetworkClient.set_worker_to_worker_local_handler x a3 st)).worker_to_own_worker_handler
        = 1
      ∧ (NetworkClient.get_own_worker_to_worker_handler x
          (NetworkClient.set_worker_to_worker_local_handler x b3
            (NetworkClient.set_worker_to_worker_local_handler x a3 st))).1.1
        = Except.ok b3)
    ∧ ((NetworkClient.set_worker_to_primary_local_handler b1
          (NetworkClient.set_worker_to_primary_local_handler a1 st)).worker_to_primary_handler
        = some b1
      ∧ (NetworkClient.get_worker_to_own_primary_handler
          (NetworkClient.set_worker_to_primary_local_handler b1
            (NetworkClient.set_worker_to_primary_local_handler a1 st))).1.1
        = Except.ok b1) := by
  have e2 : NetworkClient.get_primary_to_own_worker_handler x
      (NetworkClient.set_primary_to_worker_local_handler x b2
        (NetworkClient.set_primary_to_worker_local_handler x a2 st))
      = ((Except.ok b2, [Event.attempt]),
         NetworkClient.set_primary_to_worker_local_handler x b2
           (NetworkClient.set_primary_to_worker_local_handler x a2 st)) :=
    getPrimaryToOwnWorkerGo_hit x
      (NetworkClient.set_primary_to_worker_local_handler x b2
        (NetworkClient.set_primary_to_worker_local_handler x a2 st)) b2 hs
      (mapGet_mapInsert_self x b2 _) 9
  have e3 : NetworkClient.get_own_worker_to_worker_handler x
      (NetworkClient.set_worker_to_worker_local_handler x b3
        (NetworkClient.set_worker_to_worker_local_handler x a3 st))
      = ((Except.ok b3, [Event.attempt]),
         NetworkClient.set_worker_to_worker_local_handler x b3
           (NetworkClient.set_worker_to_worker_local_handler x a3 st)) :=
    getOwnWorkerToWorkerGo_hit x
      (NetworkClient.set_worker_to_worker_local_handler x b3
        (NetworkClient.set_worker_to_worker_local_handler x a3 st)) b3 hs
      (mapGet_mapInsert_self x b3 _) 9
  have e1 : NetworkClient.get_worker_to_own_primary_handler
      (NetworkClient.set_worker_to_primary_local_handler b1
        (NetworkClient.set_worker_to_primary_local_handler a1 st))
      = ((Except.ok b1, [Event.attempt]),
         NetworkClient.set_worker_to_primary_local_handler b1
           (NetworkClient.set_worker_to_primary_local_handler a1 st)) :=
    getWorkerToOwnPrimaryGo_hit
      (NetworkClient.set_worker_to_primary_local_handler b1
        (NetworkClient.set_worker_to_primary_local_handler a1 st)) b1 hs rfl 9
  refine ⟨⟨mapGet_mapInsert_self x b2 _, mapCount_mapInsert_self x b2 _,
      by rw [e2], fun hab => by rw [e2]; simp; exact fun h => hab h.symm⟩,
    ⟨mapGet_mapInsert_self x b3 _, mapCount_mapInsert_self x b3 _, by rw [e3]⟩,
    ⟨rfl, by rw [e1]⟩⟩

/-- Witness for C7 at a concrete registry, identity and handler pair. -/
theorem register_overwrites_witness :
    (NetworkClient.new Nat Nat Nat empty_peer_id).shutdown = false
      ∧ (7 : Nat) ≠ 8
      ∧ (NetworkClient.get_primary_to_own_worker_handler ⟨[5]⟩
          (NetworkClient.set_primary_to_worker_local_handler ⟨[5]⟩ 8
            (NetworkClient.set_primary_to_worker_local_handler ⟨[5]⟩ 7
              (NetworkClient.new Nat Nat Nat empty_peer_id)))).1.1
        = Except.ok 8
      ∧ (NetworkClient.get_primary_to_own_worker_handler ⟨[5]⟩
          (NetworkClient.set_primary_to_worker_local_handler ⟨[5]⟩ 8
            (NetworkClient.set_primary_to_worker_local_handler ⟨[5]⟩ 7
              (NetworkClient.new Nat Nat Nat empty_peer_id)))).1.1
        ≠ Except.ok 7 :=
  ⟨rfl, by decide,
   ((register_overwrites_previous Nat Nat Nat
      (NetworkClient.new Nat Nat Nat empty_peer_id) ⟨[5]⟩ 0 0 7 8 0 0 rfl).1).2.2.1,
   ((register_overwrites_previous Nat Nat Nat
      (NetworkClient.new Nat Nat Nat empty_peer_id) ⟨[5]⟩ 0 0 7 8 0 0 rfl).1).2.2.2
     (by decide)⟩

/-- C8: each façade resolves its handler via the discovery-retry lookup
(`synchronize` under the identity derived from the worker's public network
key) and forwards at most once: a lookup error is propagated unchanged
with nothing forwarded; a forwarding failure is returned as
`Internal(fmt e)` with the message forwarded exactly once and no retry;
a forwarding success returns success with the message forwarded exactly
once.  The registry state is unchanged in all cases. -/
theorem facades_resolve_and_forward_once (H1 H2 H3 E M : Type)
    (fwd2 : H2 → M → Except E Unit) (fwd1 fwd1o : H1 → M → Except E Unit)
    (fmt : E → String) (wp : NetworkPublicKey) (msg : M)
    (st : ClientInner H1 H2 H3) :
    ((∀ e, (NetworkClient.get_primary_to_own_worker_handler (peerIdOfKey wp) st).1.1
          = Except.error e →
        PrimaryToOwnWorkerClient.synchronize E M fwd2 fmt wp msg st
          = ((Except.error e, []), st))
      ∧ (∀ c, (NetworkClient.get_primary_to_own_worker_handler (peerIdOfKey wp) st).1.1
            = Except.ok c → fwd2 c msg = Except.ok () →
          PrimaryToOwnWorkerClient.synchronize E M fwd2 fmt wp msg st
            = ((Except.ok (), [msg]), st))
      ∧ (∀ c e, (NetworkClient.get_primary_to_own_worker_handler (peerIdOfKey wp) st).1.1
            = Except.ok c → fwd2 c msg = Except.error e →
          PrimaryToOwnWorkerClient.synchronize E M fwd2 fmt wp msg st
            = ((Except.error (LocalClientError.Internal (fmt e)), [msg]), st)))
    ∧ ((∀ e, (NetworkClient.get_worker_to_own_primary_handler st).1.1
            = Except.error e →
          WorkerToOwnPrimaryClient.report_our_batch E M fwd1 fmt msg st
            = ((Except.error e, []), st))
      ∧ (∀ c, (NetworkClient.get_worker_to_own_primary_handler st).1.1
            = Except.ok c → fwd1 c msg = Except.ok () →
          WorkerToOwnPrimaryClient.report_our_batch E M fwd1 fmt msg st
            = ((Except.ok (), [msg]), st))
      ∧ (∀ c e, (NetworkClient.get_worker_to_own_primary_handler st).1.1
            = Except.ok c → fwd1 c msg = Except.error e →
          WorkerToOwnPrimaryClient.report_our_batch E M fwd1 fmt msg st
            = ((Except.error (LocalClientError.Internal (fmt e)), [msg]), st)))
    ∧ ((∀ e, (NetworkClient.get_worker_to_own_primary_handler st).1.1
            = Except.error e →
          WorkerToOwnPrimaryClient.report_others_batch E M fwd1o fmt msg st
            = ((Except.error e, []), st))
      ∧ (∀ c, (NetworkClient.get_worker_to_own_primary_handler st).1.1
            = Except.ok c → fwd1o c msg = Except.ok () →
          WorkerToOwnPrimaryClient.report_others_batch E M fwd1o fmt msg st
            = ((Except.ok (), [msg]), st))
      ∧ (∀ c e, (NetworkClient.get_worker_to_own_primary_handler st).1.1
            = Except.ok c → fwd1o c msg = Except.error e →
          WorkerToOwnPrimaryClient.report_others_batch E M fwd1o fmt msg st
            = ((Except.error (LocalClientError.Internal (fmt e)), [msg]), st))) := by
  refine ⟨⟨?_, ?_, ?_⟩, ⟨?_, ?_, ?_⟩, ⟨?_, ?_, ?_⟩⟩
  · intro e he
    simp only [PrimaryToOwnWorkerClient.synchronize, he,
      get_primary_to_own_worker_handler_state]
  · intro c hc hf
    simp only [PrimaryToOwnWorkerClient.synchronize, hc, hf,
      get_primary_to_own_worker_handler_state]
  · intro c e hc hf
    simp only [PrimaryToOwnWorkerClient.synchronize, hc, hf,
      get_primary_to_own_worker_handler_state]
  · intro e he
    simp only [WorkerToOwnPrimaryClient.report_our_batch, he,
      get_worker_to_own_primary_handler_state]
  · intro c hc hf
    simp only [WorkerToOwnPrimaryClient.report_our_batch, hc, hf,
      get_worker_to_own_primary_handler_state]
  · intro c e hc hf
    simp only [WorkerToOwnPrimaryClient.report_our_batch, hc, hf,
      get_worker_to_own_primary_handler_state]
  · intro e he
    simp only [WorkerToOwnPrimaryClient.report_others_batch, he,
      get_worker_to_own_primary_handler_state]
  · intro c hc hf
    simp only [WorkerToOwnPrimaryClient.report_others_batch, hc, hf,
      get_worker_to_own_primary_handler_state]
  · intro c e hc hf
    simp only [WorkerToOwnPrimaryClient.report_others_batch, hc, hf,
      get_worker_to_own_primary_handler_state]

/-- Witness for C8: the three façades evaluated on a concrete empty
registry (lookup failure) and on a concrete fully registered registry
(forward success and forward failure). -/
theorem facades_witness :
    (PrimaryToOwnWorkerClient.synchronize String Nat
        (fun _ _ => Except.ok ()) id ⟨[2]⟩ 3
        (NetworkClient.new Nat Nat Nat empty_peer_id)
      = ((Except.error (LocalClientError.WorkerNotStarted (peerIdOfKey ⟨[2]⟩)), []),
         NetworkClient.new Nat Nat Nat empty_peer_id))
    ∧ (PrimaryToOwnWorkerClient.synchronize String Nat
        (fun _ _ => Except.ok ()) id ⟨[2]⟩ 3
        (NetworkClient.set_worker_to_primary_local_handler 9
          (NetworkClient.set_primary_to_worker_local_handler (peerIdOfKey ⟨[2]⟩) 5
            (NetworkClient.new Nat Nat Nat empty_peer_id)))
      = ((Except.ok (), [3]),
         NetworkClient.set_worker_to_primary_local_handler 9
           (NetworkClient.set_primary_to_worker_local_handler (peerIdOfKey ⟨[2]⟩) 5
             (NetworkClient.new Nat Nat Nat empty_peer_id))))
    ∧ (PrimaryToOwnWorkerClient.synchronize String Nat
        (fun _ _ => Except.error "boom") id ⟨[2]⟩ 3
        (NetworkClient.set_worker_to_primary_local_handler 9
          (NetworkClient.set_primary_to_worker_local_handler (peerIdOfKey ⟨[2]⟩) 5
            (NetworkClient.new Nat Nat Nat empty_peer_id)))
      = ((Except.error (LocalClientError.Internal "boom"), [3]),
         NetworkClient.set_worker_to_primary_local_handler 9
           (NetworkClient.set_primary_to_worker_local_handler (peerIdOfKey ⟨[2]⟩) 5
             (NetworkClient.new Nat Nat Nat empty_peer_id))))
    ∧ (WorkerToOwnPrimaryClient.report_our_batch String Nat
        (fun _ _ => Except.ok ()) id 3
        (NetworkClient.new Nat Nat Nat empty_peer_id)
      = ((Except.error (LocalClientError.PrimaryNotStarted empty_peer_id), []),
         NetworkClient.new Nat Nat Nat empty_peer_id))
    ∧ (WorkerToOwnPrimaryClient.report_our_batch String Nat
        (fun _ _ => Except.ok ()) id 3
        (NetworkClient.set_worker_to_primary_local_handler 9
          (NetworkClient.set_primary_to_worker_local_handler (peerIdOfKey ⟨[2]⟩) 5
            (NetworkClient.new Nat Nat Nat empty_peer_id)))
      = ((Except.ok (), [3]),
         NetworkClient.set_worker_to_primary_local_handler 9
           (NetworkClient.set_primary_to_worker_local_handler (peerIdOfKey ⟨[2]⟩) 5
             (NetworkClient.new Nat Nat Nat empty_peer_id))))
    ∧ (WorkerToOwnPrimaryClient.report_our_batch String Nat
        (fun _ _ => Except.error "boom") id 3
        (NetworkClient.set_worker_to_primary_local_handler 9
          (NetworkClient.set_primary_to_worker_local_handler (peerIdOfKey ⟨[2]⟩) 5
            (NetworkClient.new Nat Nat Nat empty_peer_id)))
      = ((Except.error (LocalClientError.Internal "boom"), [3]),
         NetworkClient.set_worker_to_primary_local_handler 9
           (NetworkClient.set_primary_to_worker_local_handler (peerIdOfKey ⟨[2]⟩) 5
             (NetworkClient.new Nat Nat Nat empty_peer_id))))
    ∧ (WorkerToOwnPrimaryClient.report_others_batch String Nat
        (fun _ _ => Except.ok ()) id 3
        (NetworkClient.new Nat Nat Nat empty_peer_id)
      = ((Except.error (LocalClientError.PrimaryNotStarted empty_peer_id), []),
         NetworkClient.new Nat Nat Nat empty_peer_id))
    ∧ (WorkerToOwnPrimaryClient.report_others_batch String Nat
        (fun _ _ => Except.ok ()) id 3
        (NetworkClient.set_worker_to_primary_local_handler 9
          (NetworkClient.set_primary_to_worker_local_handler (peerIdOfKey ⟨[2]⟩) 5
            (NetworkClient.new Nat Nat Nat empty_peer_id)))
      = ((Except.ok (), [3]),
         NetworkClient.set_worker_to_primary_local_handler 9
           (NetworkClient.set_primary_to_worker_local_handler (peerIdOfKey ⟨[2]⟩) 5
             (NetworkClient.new Nat Nat Nat empty_peer_id))))
    ∧ (WorkerToOwnPrimaryClient.report_others_batch String Nat
        (fun _ _ => Except.error "boom") id 3
        (NetworkClient.set_worker_to_primary_local_handler 9
          (NetworkClient.set_primary_to_worker_local_handler (peerIdOfKey ⟨[2]⟩) 5
            (NetworkClient.new Nat Nat Nat empty_peer_id)))
      = ((Except.error (LocalClientError.Internal "boom"), [3]),
         NetworkClient.set_worker_to_primary_local_handler 9
           (NetworkClient.set_primary_to_worker_local_handler (peerIdOfKey ⟨[2]⟩) 5
             (NetworkClient.new Nat Nat Nat empty_peer_id)))) := by
  refine ⟨?_, ?_, ?_, ?_, ?_, ?_, ?_, ?_, ?_⟩
  · exact (facades_resolve_and_forward_once Nat Nat Nat String Nat
      (fun _ _ => Except.ok ()) (fun _ _ => Except.ok ()) (fun _ _ => Except.ok ())
      id ⟨[2]⟩ 3 (NetworkClient.new Nat Nat Nat empty_peer_id)).1.1
      (LocalClientError.WorkerNotStarted (peerIdOfKey ⟨[2]⟩)) rfl
  · exact (facades_resolve_and_forward_once Nat Nat Nat String Nat
      (fun _ _ => Except.ok ()) (fun _ _ => Except.ok ()) (fun _ _ => Except.ok ())
      id ⟨[2]⟩ 3
      (NetworkClient.set_worker_to_primary_local_handler 9
        (NetworkClient.set_primary_to_worker_local_handler (peerIdOfKey ⟨[2]⟩) 5
          (NetworkClient.new Nat Nat Nat empty_peer_id)))).1.2.1 5 rfl rfl
  · exact (facades_resolve_and_forward_once Nat Nat Nat String Nat
      (fun _ _ => Except.error "boom") (fun _ _ => Except.ok ()) (fun _ _ => Except.ok ())
      id ⟨[2]⟩ 3
      (NetworkClient.set_worker_to_primary_local_handler 9
        (NetworkClient.set_primary_to_worker_local_handler (peerIdOfKey ⟨[2]⟩) 5
          (NetworkClient.new Nat Nat Nat empty_peer_id)))).1.2.2 5 "boom" rfl rfl
  · exact (facades_resolve_and_forward_once Nat Nat Nat String Nat
      (fun _ _ => Except.ok ()) (fun _ _ => Except.ok ()) (fun _ _ => Except.ok ())
      id ⟨[2]⟩ 3 (NetworkClient.new Nat Nat Nat empty_peer_id)).2.1.1
      (LocalClientError.PrimaryNotStarted empty_peer_id) rfl
  · exact (facades_resolve_and_forward_once Nat Nat Nat String Nat
      (fun _ _ => Except.ok ()) (fun _ _ => Except.ok ()) (fun _ _ => Except.ok ())
      id ⟨[2]⟩ 3
      (NetworkClient.set_worker_to_primary_local_handler 9
        (NetworkClient.set_primary_to_worker_local_handler (peerIdOfKey ⟨[2]⟩) 5
          (NetworkClient.new Nat Nat Nat empty_peer_id)))).2.1.2.1 9 rfl rfl
  · exact (facades_resolve_and_forward_once Nat Nat Nat String Nat
      (fun _ _ => Except.ok ()) (fun _ _ => Except.error "boom") (fun _ _ => Except.ok ())
      id ⟨[2]⟩ 3
      (NetworkClient.set_worker_to_primary_local_handler 9
        (NetworkClient.set_primary_to_worker_local_handler (peerIdOfKey ⟨[2]⟩) 5
          (NetworkClient.new Nat Nat Nat empty_peer_id)))).2.1.2.2 9 "boom" rfl rfl
  · exact (facades_resolve_and_forward_once Nat Nat Nat String Nat
      (fun _ _ => Except.ok ()) (fun _ _ => Except.ok ()) (fun _ _ => Except.ok ())
      id ⟨[2]⟩ 3 (NetworkClient.new Nat Nat Nat empty_peer_id)).2.2.1
      (LocalClientError.PrimaryNotStarted empty_peer_id) rfl
  · exact (facades_resolve_and_forward_once Nat Nat Nat String Nat
      (fun _ _ => Except.ok ()) (fun _ _ => Except.ok ()) (fun _ _ => Except.ok ())
      id ⟨[2]⟩ 3
      (NetworkClient.set_worker_to_primary_local_handler 9
        (NetworkClient.set_primary_to_worker_local_handler (peerIdOfKey ⟨[2]⟩) 5
          (NetworkClient.new Nat Nat Nat empty_peer_id)))).2.2.2.1 9 rfl rfl
  · exact (facades_resolve_and_forward_once Nat Nat Nat String Nat
      (fun _ _ => Except.ok ()) (fun _ _ => Except.ok ()) (fun _ _ => Except.error "boom")
      id ⟨[2]⟩ 3
      (NetworkClient.set_worker_to_primary_local_handler 9
        (NetworkClient.set_primary_to_worker_local_handler (peerIdOfKey ⟨[2]⟩) 5
          (NetworkClient.new Nat Nat Nat empty_peer_id)))).2.2.2.2 9 "boom" rfl rfl

/-- Counterexample to C5 as stated: submitting batch `[famA]` then batch
`[famB]` and requesting metrics serves (the extraction of) `[famA]`, the
oldest batch, not the most recently submitted `[famB]`; and after a batch
is served, a second request with no intervening submit fails instead of
re-serving it, because `export` pops the batch from the buffer. -/
theorem relay_serves_oldest_and_drops :
    (HistogramRelay.exportText encodeNames
        (HistogramRelay.submit
          (HistogramRelay.submit (HistogramRelay.new Nat Nat) [famA]) [famB])).1
      = Except.ok "a"
    ∧ encodeNames (extract_histograms [famB]) = Except.ok "b"
    ∧ (Except.ok "a" : Except String String) ≠ Except.ok "b"
    ∧ (HistogramRelay.exportText encodeNames
        (HistogramRelay.exportText encodeNames
          (HistogramRelay.submit (HistogramRelay.new Nat Nat) [famA])).2).1
      = Except.error "no data in HistogramRelay to scrape" := by
  refine ⟨rfl, rfl, by simp, rfl⟩

/-- C5, amended: the relay is a FIFO queue — `submit` appends the batch at
the back, a metrics request pops and serves the oldest batch (through
`extract_histograms` and the encoder), removing it from the buffer, and a
request on an empty buffer fails with an error; a served batch is not
retained for re-serving. -/
theorem relay_fifo_pop_semantics (Pay Hst : Type)
    (encode : List (MetricFamily Pay Hst) → Except String String)
    (buf rest : List (List (MetricFamily Pay Hst)))
    (data d : List (MetricFamily Pay Hst)) (s : String) :
    HistogramRelay.submit buf data = buf ++ [data]
      ∧ (encode (extract_histograms d) = Except.ok s →
          HistogramRelay.exportText encode (d :: rest) = (Except.ok s, rest))
      ∧ HistogramRelay.exportText encode []
          = (Except.error "no data in HistogramRelay to scrape", []) := by
  refine ⟨rfl, fun he => ?_, rfl⟩
  simp only [HistogramRelay.exportText, he]

/-- Witness for C5 (amended) on a concrete two-batch buffer. -/
theorem relay_fifo_witness :
    encodeNames (extract_histograms [famA]) = Except.ok "a"
      ∧ HistogramRelay.exportText encodeNames [[famA], [famB]]
        = (Except.ok "a", [[famB]]) :=
  ⟨rfl,
   (relay_fifo_pop_semantics Nat Nat encodeNames [] [[famB]] [] [famA] "a").2.1 rfl⟩
